import Mathlib

/-!
Verification of the loggy service (src/python/flask/main.py).

The service is embedded shallowly:
* the logging sink is modelled as the list of emitted log lines (a line is a
  severity string and a message string);
* the HTTP handler `log_message_route` becomes a pure function from its path
  parameters to the response together with the list of lines it emits;
* the handler `crash_route` becomes a pure function from its path parameter to
  the ordered trace of events it performs (emit a line, return a response, or
  re-raise the pending exception);
* Python's division, which raises `ZeroDivisionError` on a zero divisor, is
  modelled with `Except`;
* the periodic background logger becomes a function producing the ordered list
  of actions (sleep, emit) of one loop iteration, and its infinite loop is the
  trace of `n` iterations for arbitrary `n`;
* Python's `str.lower` / `str.upper` are modelled by the ASCII case maps
  (the level and handle strings the program compares against are all ASCII).
-/

namespace Loggy

/-- ASCII lower-casing of one character, the case mapping relevant to the
program's level strings (embeds Python `str.lower` per character). -/
def pyCharLower (c : Char) : Char :=
  if 65 ≤ c.toNat ∧ c.toNat ≤ 90 then Char.ofNat (c.toNat + 32) else c

/-- ASCII upper-casing of one character (embeds Python `str.upper` per
character). -/
def pyCharUpper (c : Char) : Char :=
  if 97 ≤ c.toNat ∧ c.toNat ≤ 122 then Char.ofNat (c.toNat - 32) else c

/-- Embedding of Python `str.lower`. -/
def py_lower (s : String) : String := ⟨s.data.map pyCharLower⟩

/-- Embedding of Python `str.upper`. -/
def py_upper (s : String) : String := ⟨s.data.map pyCharUpper⟩

/-- One emitted log line: the severity it was emitted at and its message.
The sink (`logging` module) is modelled by the list of such lines, in
emission order. -/
structure LogLine where
  severity : String
  message : String
deriving DecidableEq

/-- An HTTP response: body text and status code, as returned by the Flask
handlers. -/
structure Response where
  body : String
  status : Nat
deriving DecidableEq

/-- The keys of the `log_levels` dict of main.py, in source order.  The dict
maps each key to the logger method of the same severity, so in this embedding
a looked-up value is identified with its severity name. -/
def log_levels : List String := ["debug", "info", "warning", "error", "critical"]

/-- Embedding of `log_levels.get(key, default)`: the severity the looked-up
logger function emits at, `default` being the severity of the default
function. -/
def log_levels_get (key defaultSeverity : String) : String :=
  if log_levels.contains key then key else defaultSeverity

/-- Body of the 400 response of `log_message_route`
(f-string at main.py line 59). -/
def invalidBody (level : String) : String :=
  "Invalid log level: " ++ level ++ ". Must be one of: " ++
    String.intercalate ", " log_levels

/-- Body of the 200 response of `log_message_route`
(f-string at main.py line 63). -/
def emittedBody (count : Nat) (level message : String) : String :=
  "Emitted " ++ toString count ++ " logs at level " ++ py_upper level ++
    " with message: " ++ message

/-- Embedding of `log_message_route(level, message, count=1)` of main.py:
the response together with the list of log lines the call emits, in order.
Flask returns status 200 when the handler returns a bare string. -/
def log_message_route (level message : String) (count : Nat := 1) :
    Response × List LogLine :=
  if log_levels.contains (py_lower level) = false then
    (⟨invalidBody level, 400⟩, [])
  else
    (⟨emittedBody count level message, 200⟩,
     List.replicate count ⟨py_lower level, message⟩)

/-- Python division of integers by `/`: raises `ZeroDivisionError` (modelled
as `Except.error`) when the divisor is zero. -/
def pydiv (a b : Int) : Except Unit Int :=
  if b = 0 then Except.error () else Except.ok (a / b)

/-- One observable step of `crash_route`: emitting a log line, returning a
response, or re-raising the pending exception to the caller. -/
inductive CrashEvent where
  | emit (line : LogLine)
  | returned (r : Response)
  | raised
deriving DecidableEq

/-- The handle values for which `crash_route` re-raises
(set literal at main.py line 89). -/
def propagate_handles : List String := ["false", "f", "no", "n", "fail"]

/-- The critical line logged by `crash_route` when the division raises. -/
def crashLogLine : LogLine :=
  ⟨"critical", "Application crash initiated due to division by zero!"⟩

/-- Embedding of `crash_route(handle="")` of main.py: the ordered trace of
events the handler performs.  `1 / 0` is attempted first; on `ok` the handler
would return the 200 body, on `error` it logs one critical line and then
either re-raises or returns the 500 body, by `handle.lower()`. -/
def crash_route (handle : String := "") : List CrashEvent :=
  match pydiv 1 0 with
  | Except.ok _ =>
      [CrashEvent.returned ⟨"This should not be returned as crash is intended", 200⟩]
  | Except.error _ =>
      CrashEvent.emit crashLogLine ::
        (if propagate_handles.contains (py_lower handle) then
          [CrashEvent.raised]
        else
          [CrashEvent.returned
            ⟨"Crash endpoint triggered! Check server logs for division by zero error.", 500⟩])

/-- The configuration settings the periodic logger reads from settipy. -/
structure Config where
  PERIODIC_LOG_INTERVAL : Nat
  PERIODIC_LOG_LEVEL : String
  PERIODIC_LOG_MESSAGE : String
deriving DecidableEq

/-- One observable action of the periodic logger: sleeping or emitting. -/
inductive PAction where
  | sleep (seconds : Nat)
  | emitLine (line : LogLine)
deriving DecidableEq

/-- Embedding of one iteration of the `while True` loop of
`periodic_logger` of main.py: sleep the configured interval, then emit the
configured message through `log_levels.get(level.lower(), logger.info)`. -/
def periodic_logger_iteration (cfg : Config) : List PAction :=
  [PAction.sleep cfg.PERIODIC_LOG_INTERVAL,
   PAction.emitLine
     ⟨log_levels_get (py_lower cfg.PERIODIC_LOG_LEVEL) "info",
      cfg.PERIODIC_LOG_MESSAGE⟩]

/-- The trace of the first `n` iterations of the `periodic_logger` loop. -/
def periodic_logger_trace (cfg : Config) : Nat → List PAction
  | 0 => []
  | n + 1 => periodic_logger_trace cfg n ++ periodic_logger_iteration cfg

/-! ### Helper lemmas on the ASCII case maps -/

theorem char_toNat_ofNat_of_lt (n : Nat) (h : n < 55296) :
    (Char.ofNat n).toNat = n := by
  unfold Char.ofNat
  rw [dif_pos (Or.inl h)]
  rfl

theorem pyCharUpper_pyCharLower (c : Char) :
    pyCharUpper (pyCharLower c) = pyCharUpper c := by
  unfold pyCharLower pyCharUpper
  by_cases h : 65 ≤ c.toNat ∧ c.toNat ≤ 90
  · rw [if_pos h, char_toNat_ofNat_of_lt (c.toNat + 32) (by omega),
      if_pos (by omega), if_neg (by omega), Nat.add_sub_cancel, Char.ofNat_toNat]
  · rw [if_neg h]

theorem map_upper_lower (l : List Char) :
    (l.map pyCharLower).map pyCharUpper = l.map pyCharUpper := by
  induction l with
  | nil => rfl
  | cons c l ih => simp only [List.map_cons, ih, pyCharUpper_pyCharLower]

theorem py_upper_py_lower (s : String) : py_upper (py_lower s) = py_upper s :=
  congrArg String.mk (map_upper_lower s.data)

theorem intercalate_log_levels :
    String.intercalate ", " log_levels = "debug, info, warning, error, critical" := by
  decide

/-! ### The claims -/

/-- C1: for every level whose lowercase form is a valid severity, every
message, and every count N, `log_message_route` emits exactly N log lines at
that severity with that message, sequentially and in order, and returns
status 200 with the body
"Emitted \x7bcount\x7d logs at level \x7bLEVEL\x7d with message: \x7bmessage\x7d"
where LEVEL is the uppercased level. -/
theorem log_message_route_valid_emits_count (level message : String) (count : Nat)
    (h : log_levels.contains (py_lower level) = true) :
    log_message_route level message count =
      (⟨"Emitted " ++ toString count ++ " logs at level " ++ py_upper level ++
          " with message: " ++ message, 200⟩,
       List.replicate count ⟨py_lower level, message⟩) := by
  unfold log_message_route
  rw [if_neg (by rw [h]; decide)]
  rfl

theorem log_message_route_valid_emits_count_witness :
    log_levels.contains (py_lower "INFO") = true ∧
    log_message_route "INFO" "boot" 3 =
      (⟨"Emitted 3 logs at level INFO with message: boot", 200⟩,
       List.replicate 3 ⟨"info", "boot"⟩) :=
  ⟨by decide, by
    rw [log_message_route_valid_emits_count "INFO" "boot" 3 (by decide)]
    decide⟩

/-- C2: for every level whose lowercase form is not a valid severity,
`log_message_route` returns status 400 with a body listing the valid levels,
and emits no log line at all. -/
theorem log_message_route_invalid_rejects (level message : String) (count : Nat)
    (h : log_levels.contains (py_lower level) = false) :
    log_message_route level message count =
      (⟨"Invalid log level: " ++ level ++ ". Must be one of: " ++
          "debug, info, warning, error, critical", 400⟩, []) := by
  unfold log_message_route
  rw [if_pos h]
  unfold invalidBody
  rw [intercalate_log_levels]

theorem log_message_route_invalid_rejects_witness :
    log_levels.contains (py_lower "xyz") = false ∧
    log_message_route "xyz" "m" 2 =
      (⟨"Invalid log level: xyz. Must be one of: debug, info, warning, error, critical",
        400⟩, []) :=
  ⟨by decide, by
    rw [log_message_route_invalid_rejects "xyz" "m" 2 (by decide)]
    decide⟩

/-- C3: for every handle whose lowercase form is not in the propagate set,
including the empty default, `crash_route` emits exactly one critical log
line and returns status 500 with the fixed explanatory body; no `raised`
event occurs, so no exception escapes the handler. -/
theorem crash_route_caught (handle : String)
    (h : propagate_handles.contains (py_lower handle) = false) :
    crash_route handle =
      [CrashEvent.emit
         ⟨"critical", "Application crash initiated due to division by zero!"⟩,
       CrashEvent.returned
         ⟨"Crash endpoint triggered! Check server logs for division by zero error.",
          500⟩] := by
  unfold crash_route pydiv
  rw [if_pos rfl]
  rw [if_neg (by rw [h]; decide)]
  rfl

theorem crash_route_caught_witness :
    propagate_handles.contains (py_lower "") = false ∧
    crash_route "" =
      [CrashEvent.emit
         ⟨"critical", "Application crash initiated due to division by zero!"⟩,
       CrashEvent.returned
         ⟨"Crash endpoint triggered! Check server logs for division by zero error.",
          500⟩] :=
  ⟨by decide, crash_route_caught "" (by decide)⟩

/-- C4: for every handle whose lowercase form is in the propagate set,
`crash_route` first emits exactly one critical log line and then re-raises
the division error: the trace is the emit event followed by the raised
event, so the critical line precedes propagation. -/
theorem crash_route_propagates (handle : String)
    (h : propagate_handles.contains (py_lower handle) = true) :
    crash_route handle =
      [CrashEvent.emit
         ⟨"critical", "Application crash initiated due to division by zero!"⟩,
       CrashEvent.raised] := by
  unfold crash_route pydiv
  rw [if_pos rfl]
  rw [if_pos h]
  rfl

theorem crash_route_propagates_witness :
    propagate_handles.contains (py_lower "fail") = true ∧
    crash_route "fail" =
      [CrashEvent.emit
         ⟨"critical", "Application crash initiated due to division by zero!"⟩,
       CrashEvent.raised] :=
  ⟨by decide, crash_route_propagates "fail" (by decide)⟩

/-- C5: with the count path segment omitted, `log_message_route` behaves
exactly as with count 1: for every valid level and message it emits exactly
one log line and returns the body reporting "Emitted 1 logs". -/
theorem log_message_route_default_count (level message : String)
    (h : log_levels.contains (py_lower level) = true) :
    log_message_route level message = log_message_route level message 1 ∧
    log_message_route level message =
      (⟨"Emitted 1 logs at level " ++ py_upper level ++ " with message: " ++ message,
        200⟩,
       [⟨py_lower level, message⟩]) := by
  refine ⟨rfl, ?_⟩
  unfold log_message_route
  rw [if_neg (by rw [h]; decide)]
  unfold emittedBody
  rw [show ("Emitted " ++ toString 1 ++ " logs at level " : String) =
      "Emitted 1 logs at level " from by decide]
  rfl

theorem log_message_route_default_count_witness :
    log_levels.contains (py_lower "info") = true ∧
    log_message_route "info" "hb" = log_message_route "info" "hb" 1 ∧
    log_message_route "info" "hb" =
      (⟨"Emitted 1 logs at level INFO with message: hb", 200⟩, [⟨"info", "hb"⟩]) := by
  refine ⟨by decide, (log_message_route_default_count "info" "hb" (by decide)).1, ?_⟩
  rw [(log_message_route_default_count "info" "hb" (by decide)).2]
  decide

/-- C6 counterexample: "XX" and "xx" are equal up to letter case, yet
`log_message_route` answers them with different response bodies (the 400 body
echoes the caller's original casing), so the behaviours are not identical. -/
theorem log_message_route_case_counterexample :
    py_lower "XX" = py_lower "xx" ∧
    (log_message_route "XX" "m" 1).1.body ≠ (log_message_route "xx" "m" 1).1.body := by
  decide

/-- C6 (amended): for every pair of level strings equal up to letter case
whose shared lowercase form is a valid severity, `log_message_route` produces
identical behaviour: the same response status, the same response body, and
the same sequence of emitted log lines. -/
theorem log_message_route_case_insensitive (l1 l2 message : String) (count : Nat)
    (hcase : py_lower l1 = py_lower l2)
    (h : log_levels.contains (py_lower l1) = true) :
    log_message_route l1 message count = log_message_route l2 message count := by
  have hu : py_upper l1 = py_upper l2 := by
    rw [← py_upper_py_lower l1, ← py_upper_py_lower l2, hcase]
  unfold log_message_route
  rw [← hcase]
  rw [if_neg (by rw [h]; decide), if_neg (by rw [h]; decide)]
  unfold emittedBody
  rw [hu, hcase]

theorem log_message_route_case_insensitive_witness :
    py_lower "INFO" = py_lower "info" ∧
    log_levels.contains (py_lower "INFO") = true ∧
    log_message_route "INFO" "test" 1 = log_message_route "info" "test" 1 :=
  ⟨by decide, by decide,
    log_message_route_case_insensitive "INFO" "info" "test" 1 (by decide) (by decide)⟩

/-- C7: each iteration of the periodic logger first sleeps
PERIODIC_LOG_INTERVAL seconds and then emits exactly one line carrying
PERIODIC_LOG_MESSAGE at the severity looked up from the lowercased
PERIODIC_LOG_LEVEL; when that lowercased level is not a recognized severity,
the lookup falls back to the info severity (and the iteration still succeeds,
no error action exists). -/
theorem periodic_logger_iteration_spec (cfg : Config) :
    periodic_logger_iteration cfg =
      [PAction.sleep cfg.PERIODIC_LOG_INTERVAL,
       PAction.emitLine
         ⟨log_levels_get (py_lower cfg.PERIODIC_LOG_LEVEL) "info",
          cfg.PERIODIC_LOG_MESSAGE⟩] ∧
    (log_levels.contains (py_lower cfg.PERIODIC_LOG_LEVEL) = false →
      log_levels_get (py_lower cfg.PERIODIC_LOG_LEVEL) "info" = "info") := by
  refine ⟨rfl, fun h => ?_⟩
  unfold log_levels_get
  rw [if_neg (by rw [h]; decide)]

theorem periodic_logger_iteration_spec_witness :
    periodic_logger_iteration ⟨10, "WOOF", "System heartbeat"⟩ =
      [PAction.sleep 10, PAction.emitLine ⟨"info", "System heartbeat"⟩] := by
  have h := periodic_logger_iteration_spec ⟨10, "WOOF", "System heartbeat"⟩
  rw [h.1, h.2 (by decide)]

/-- C8: the periodic logger never terminates: after any number of iterations
the loop takes another non-empty sleep-then-emit step, so the trace strictly
grows and no state of the loop is terminal. -/
theorem periodic_logger_never_terminates (cfg : Config) (n : Nat) :
    ∃ more, more ≠ [] ∧
      periodic_logger_trace cfg (n + 1) = periodic_logger_trace cfg n ++ more ∧
      (periodic_logger_trace cfg n).length < (periodic_logger_trace cfg (n + 1)).length := by
  refine ⟨periodic_logger_iteration cfg, by simp [periodic_logger_iteration], rfl, ?_⟩
  simp [periodic_logger_trace, periodic_logger_iteration]

/-- C9: with count 0 and a valid level, `log_message_route` emits no log line
at all and still returns status 200 with the body
"Emitted 0 logs at level {LEVEL} with message: {message}". -/
theorem log_message_route_count_zero (level message : String)
    (h : log_levels.contains (py_lower level) = true) :
    log_message_route level message 0 =
      (⟨"Emitted 0 logs at level " ++ py_upper level ++ " with message: " ++ message,
        200⟩, []) := by
  unfold log_message_route
  rw [if_neg (by rw [h]; decide)]
  unfold emittedBody
  rw [show ("Emitted " ++ toString 0 ++ " logs at level " : String) =
      "Emitted 0 logs at level " from by decide]
  rfl

theorem log_message_route_count_zero_witness :
    log_levels.contains (py_lower "error") = true ∧
    log_message_route "error" "oops" 0 =
      (⟨"Emitted 0 logs at level ERROR with message: oops", 200⟩, []) :=
  ⟨by decide, by
    rw [log_message_route_count_zero "error" "oops" (by decide)]
    decide⟩

/-- C10: the 200 success branch of `crash_route` is unreachable: for every
handle the trace is either emit-then-raised or emit-then-return-500, and the
event returning the 200 body "This should not be returned as crash is
intended" never occurs in it. -/
theorem crash_route_success_unreachable (handle : String) :
    (crash_route handle =
       [CrashEvent.emit crashLogLine, CrashEvent.raised] ∨
     crash_route handle =
       [CrashEvent.emit crashLogLine,
        CrashEvent.returned
          ⟨"Crash endpoint triggered! Check server logs for division by zero error.",
           500⟩]) ∧
    CrashEvent.returned ⟨"This should not be returned as crash is intended", 200⟩ ∉
      crash_route handle := by
  unfold crash_route pydiv
  rw [if_pos rfl]
  by_cases h : propagate_handles.contains (py_lower handle) = true
  · rw [if_pos h]
    exact ⟨Or.inl rfl, by decide⟩
  · rw [if_neg h]
    exact ⟨Or.inr rfl, by decide⟩

end Loggy
